import Mathlib

/-!
Shallow embedding of `dashboard_siga_v7.py` (SIGA monitoring dashboard).

The script is a single top-to-bottom Streamlit program.  We embed the parts
the verification claims are about:

* the filter pipeline (service type / inspector / region membership filters,
  the temporal year-month filter, and the computed column
  "Dias desde última fiscalização"), lines 123-236 of the source;
* the selection-required halts (`st.stop()`), lines 133-155;
* the alert table, lines 347-358;
* the Excel exporter `download_excel_with_formatting`, lines 50-80, modelled
  on a generic column-oriented dataframe because the Python function is
  generic in its dataframe argument.

Python strings are `String`, pandas timestamps are `DateTime` (a calendar
date plus a seconds-of-day component; `pd.Timestamp.date()` drops the time
component), missing values (`NaN` / `NaT` / `None`) are `Option.none`.
A pandas boolean-mask selection `df[mask]` is `List.filter`; it produces a
new frame, and `df = df[mask]` rebinds the local name, so the filter stages
are pure list transformations.  Python `sorted` on strings is lexicographic
comparison of code points, embedded below as `strLe`.
-/

/-- Lexicographic comparison of code-point lists; the order Python `sorted`
uses on strings.  (Core `String.le` is not used because its `ltb` runner
does not reduce in the kernel.) -/
def charsLe : List Char → List Char → Bool
  | [], _ => true
  | _ :: _, [] => false
  | a :: as, b :: bs =>
    if a.toNat < b.toNat then true
    else if b.toNat < a.toNat then false
    else charsLe as bs

/-- Python string comparison `a <= b` (lexicographic on code points). -/
def strLe (a b : String) : Bool := charsLe a.data b.data

/-- `strLe` as a relation, for `List.insertionSort`. -/
def strLeR (a b : String) : Prop := strLe a b = true

instance : DecidableRel strLeR :=
  fun a b => inferInstanceAs (Decidable (strLe a b = true))

/-- Python `sorted` on a list of strings (embedded as an insertion sort;
only the ordering relation matters to the claims). -/
def sortStrings (xs : List String) : List String := xs.insertionSort strLeR

/-- `sorted(series.dropna().unique())`: drop missing values (done by the
callers via `filterMap`), deduplicate keeping first occurrences, sort. -/
def uniqueSorted (xs : List String) : List String := sortStrings xs.dedup

/-- A calendar date, as carried by a pandas timestamp (`dt.year`,
`dt.month`, `dt.day`). -/
structure Date where
  year : Int
  month : Nat
  day : Nat
deriving DecidableEq, Repr

/-- A pandas timestamp: a date plus a seconds-of-day component.
`Timestamp.date()` keeps only the `date` field. -/
structure DateTime where
  date : Date
  secs : Nat
deriving DecidableEq, Repr

/-- Days from the civil epoch 1970-01-01 to a date (the standard
`days_from_civil` algorithm, with floor division so it is valid for all
years).  `datetime.date` subtraction in Python returns exactly this
difference of epoch-day numbers. -/
def epochDays (d : Date) : Int :=
  let y : Int := if d.month ≤ 2 then d.year - 1 else d.year
  let era : Int := Int.fdiv y 400
  let yoe : Int := y - era * 400
  let mp : Int := if d.month ≤ 2 then (d.month : Int) + 9 else (d.month : Int) - 3
  let doy : Int := (153 * mp + 2) / 5 + (d.day : Int) - 1
  let doe : Int := yoe * 365 + yoe / 4 - yoe / 100 + doy
  era * 146097 + doe - 719468

/-- Chronological key of a timestamp; pandas compares timestamps in this
order (`series.min()` / `series.max()`). -/
def chronoKey (d : DateTime) : Int := epochDays d.date * 86400 + (d.secs : Int)

/-- One row of the normalized table (after `load_and_preprocess_data`):
the retained columns of interest.  `dias` is the computed column
"Dias desde última fiscalização"; the loader leaves it `none` and the
pipeline fills it in.  String-valued cells are `Option` because pandas
cells can be missing (`dropna` / `isin` treat missing as absent/false). -/
structure Row where
  id : Int
  rpa : Option String
  bairro : String
  logradouro : String
  trecho : String
  tipoServico : Option String
  fiscal : Option String
  dataAbertura : Option DateTime
  ultimaFiscalizacao : Option DateTime
  dias : Option Int := none
deriving DecidableEq, Repr

/-- A dataframe of normalized rows, in row order. -/
abbrev Table := List Row

/-- The widget session state the temporal filter reads and writes
(`st.session_state` keys `fiscal_year_slider`, `fiscal_month_multiselect`);
`none` means the key is absent. -/
structure Session where
  fiscalYearSlider : Option Int
  fiscalMonthMultiselect : Option (List String)
deriving DecidableEq, Repr

/-- The operator's Filter State for one script run: the three mandatory
multiselect values, the month-name multiselect value, and the alert
threshold slider value. -/
structure Selections where
  tipos : List String
  fiscais : List String
  rpas : List String
  months : List String
  alertaDias : Int
deriving DecidableEq, Repr

/-- Mask of `df["Tipo de Serviço"].isin(tipos_selecionados)`; a missing
cell is never `isin` a selection. -/
def pTipo (sel : List String) (r : Row) : Bool :=
  match r.tipoServico with
  | some t => decide (t ∈ sel)
  | none => false

/-- Mask of `df["Fiscal"].isin(fiscais_selecionados)`. -/
def pFiscal (sel : List String) (r : Row) : Bool :=
  match r.fiscal with
  | some f => decide (f ∈ sel)
  | none => false

/-- Mask of `df["RPA"].isin(rpas_selecionadas)`. -/
def pRpa (sel : List String) (r : Row) : Bool :=
  match r.rpa with
  | some a => decide (a ∈ sel)
  | none => false

/-- The three mandatory membership filters applied in source order
(service type, then inspector, then region; lines 137, 143, 152). -/
def filtro3 (sel : Selections) (df : Table) : Table :=
  ((df.filter (pTipo sel.tipos)).filter (pFiscal sel.fiscais)).filter (pRpa sel.rpas)

/-- `df["Última Fiscalização"].dropna()` (line 162). -/
def validDates (df : Table) : List DateTime :=
  df.filterMap Row.ultimaFiscalizacao

/-- Chronological minimum of a nonempty timestamp list (`series.min()`). -/
def minDateD (v : DateTime) (vs : List DateTime) : DateTime :=
  vs.foldl (fun m d => if chronoKey d < chronoKey m then d else m) v

/-- Chronological maximum of a nonempty timestamp list (`series.max()`). -/
def maxDateD (v : DateTime) (vs : List DateTime) : DateTime :=
  vs.foldl (fun m d => if chronoKey m < chronoKey d then d else m) v

/-- `valid_dates.min().year`, with a default for the empty case (the source
only evaluates it on a nonempty series). -/
def minYearOf (vd : List DateTime) (dflt : Int) : Int :=
  match vd with
  | [] => dflt
  | v :: vs => (minDateD v vs).date.year

/-- `valid_dates.max().year`, with a default for the empty case. -/
def maxYearOf (vd : List DateTime) (dflt : Int) : Int :=
  match vd with
  | [] => dflt
  | v :: vs => (maxDateD v vs).date.year

/-- The session-year clamp of lines 181-184: below the minimum resets to
the minimum, above the maximum resets to the maximum. -/
def clampYear (sessY minY maxY : Int) : Int :=
  if sessY < minY then minY else if maxY < sessY then maxY else sessY

/-- The selected year for a run: the session slider value clamped to the
year range of the given valid-date list (lines 177-197; when the range is
a single year, line 187 picks that year, which the clamp also yields). -/
def resolvedYear (sessY : Int) (vd : List DateTime) : Int :=
  clampYear sessY (minYearOf vd sessY) (maxYearOf vd sessY)

/-- `sorted(list(set(d.month for d in valid_dates if d.year == y)))`
(line 205): the distinct months present in year `y`, ascending. -/
def monthsInYear (vd : List DateTime) (y : Int) : List Nat :=
  (((vd.filter (fun d => decide (d.date.year = y))).map
      (fun d => d.date.month)).dedup).insertionSort (· ≤ ·)

/-- The `month_names` dictionary of lines 199-203. -/
def monthNamesMap : List (Nat × String) :=
  [(1, "Janeiro"), (2, "Fevereiro"), (3, "Março"), (4, "Abril"),
   (5, "Maio"), (6, "Junho"), (7, "Julho"), (8, "Agosto"),
   (9, "Setembro"), (10, "Outubro"), (11, "Novembro"), (12, "Dezembro")]

/-- The name-to-number lookup of line 221
(`list(month_names.keys())[list(month_names.values()).index(m)]`). -/
def monthNum (nm : String) : Option Nat :=
  (monthNamesMap.find? (fun p => decide (p.2 = nm))).map (·.1)

/-- The temporal mask of lines 223-226:
`(dt.year == selected_year) & (dt.month.isin(selected_months_nums))`.
For a missing timestamp both comparisons are false (`NaT` propagates `NaN`,
which compares unequal), so such a row never passes. -/
def temporalPass (y : Int) (ms : List Nat) (r : Row) : Bool :=
  match r.ultimaFiscalizacao with
  | some d => decide (d.date.year = y) && decide (d.date.month ∈ ms)
  | none => false

/-- Lines 233-236: fill the computed column from the current date `hoje`;
`(hoje - x.date()).days` if the timestamp is present, else `None`. -/
def setDias (hoje : Date) (r : Row) : Row :=
  { r with dias := r.ultimaFiscalizacao.map (fun d => epochDays hoje - epochDays d.date) }

/-- The temporal filter stage (lines 157-230) on the already narrowed
table `d1`: skipped when `d1` has no valid last-inspection date (line 229)
or no month is available in the selected year (line 227); otherwise keeps
the rows whose date falls in the resolved year with a month among the
selected month names. -/
def temporalStage (sessY : Int) (sel : Selections) (d1 : Table) : Table :=
  if validDates d1 = [] then d1
  else
    if monthsInYear (validDates d1) (resolvedYear sessY (validDates d1)) = [] then d1
    else
      d1.filter
        (temporalPass (resolvedYear sessY (validDates d1)) (sel.months.filterMap monthNum))

/-- The filter pipeline for one run, after the selection-required checks
have passed (lines 137-236): the three membership filters, then the
temporal stage, then the computed days column.  `sessY` is the session
year-slider value at the start of the run and `sel.months` the month
multiselect value. -/
def applyFilters (hoje : Date) (sessY : Int) (sel : Selections) (df : Table) : Table :=
  (temporalStage sessY sel (filtro3 sel df)).map (setDias hoje)

/-- `tipos_disponiveis` (line 129), computed from the full table. -/
def tiposDisponiveis (df : Table) : List String :=
  uniqueSorted (df.filterMap Row.tipoServico)

/-- `tipo_padrao` (line 130): `"Buraco SIGA"` when available, else the
first available type, else the empty selection. -/
def tipoPadrao (avail : List String) : List String :=
  if "Buraco SIGA" ∈ avail then ["Buraco SIGA"]
  else
    match avail with
    | [] => []
    | t :: _ => [t]

/-- `fiscais_disponiveis` (line 140): computed from the table after the
service-type filter has already narrowed it. -/
def fiscaisDisponiveisCode (sel : Selections) (df : Table) : List String :=
  uniqueSorted ((df.filter (pTipo sel.tipos)).filterMap Row.fiscal)

/-- `rpas_disponiveis` (line 149): computed from the table after the
service-type and inspector filters have narrowed it. -/
def rpasDisponiveisCode (sel : Selections) (df : Table) : List String :=
  uniqueSorted
    (((df.filter (pTipo sel.tipos)).filter (pFiscal sel.fiscais)).filterMap Row.rpa)

/-- The inspector domain the specification describes: distinct non-missing
inspectors of the normalized full table, sorted. -/
def fiscaisFull (df : Table) : List String :=
  uniqueSorted (df.filterMap Row.fiscal)

/-- The region domain the specification describes: distinct non-missing
regions of the normalized full table, sorted. -/
def rpasFull (df : Table) : List String :=
  uniqueSorted (df.filterMap Row.rpa)

/-- The alert mask of lines 347-349:
`x > alerta_dias_config if x is not None else False`. -/
def alertPred (thr : Int) (r : Row) : Bool :=
  match r.dias with
  | some x => decide (thr < x)
  | none => false

/-- Sort key of the alert table ("Dias desde última fiscalização"); alert
rows always have that column non-null. -/
def diasKey (r : Row) : Int := r.dias.getD 0

/-- Descending order on the days column, for
`sort_values(by=..., ascending=False)` (line 353). -/
def alertGE (a b : Row) : Prop := diasKey b ≤ diasKey a

instance : DecidableRel alertGE :=
  fun a b => inferInstanceAs (Decidable (diasKey b ≤ diasKey a))

instance : IsTotal Row alertGE := ⟨fun a b => le_total (diasKey b) (diasKey a)⟩

instance : IsTrans Row alertGE := ⟨fun _ _ _ hab hbc => le_trans hbc hab⟩

/-- The Alert Selector (lines 347-354): keep rows whose days column is
non-null and strictly above the threshold, sort descending on it, reindex
from 1 (`reset_index` then `index += 1`). -/
def alertaTable (wt : Table) (thr : Int) : List (Nat × Row) :=
  List.enumFrom 1 ((wt.filter (alertPred thr)).insertionSort alertGE)

/-- The three selection-required halts (`st.stop()` at lines 135, 146,
155), in source order. -/
inductive Halt
  | tipoRequired
  | fiscalRequired
  | rpaRequired
deriving DecidableEq, Repr

/-- Result of one script run: either a validation halt, or the rendered
artifacts (working table and alert table) that the aggregate, chart and
export sections consume. -/
inductive RunOut
  | halted (h : Halt)
  | rendered (working : Table) (alerts : List (Nat × Row))
deriving DecidableEq, Repr

/-- Initialization of the year-slider session key (lines 167-171): keep an
existing value; otherwise the maximum valid year of the full table, or the
current year when the full table has no valid last-inspection date. -/
def initSessionYear (sess : Session) (hoje : Date) (dfOrig : Table) : Int :=
  match sess.fiscalYearSlider with
  | some y => y
  | none =>
    match validDates dfOrig with
    | [] => hoje.year
    | v :: vs => (maxDateD v vs).date.year

/-- Session state after a successful (non-halted) run: the year key holds
the resolved year (clamp at lines 181-189, slider write-back), the month
key holds the month multiselect value when that widget was shown, else the
initialized previous value (lines 173-174). -/
def updatedSession (sess : Session) (hoje : Date) (sel : Selections) (dfOrig : Table) : Session :=
  let y0 := initSessionYear sess hoje dfOrig
  let vd := validDates (filtro3 sel dfOrig)
  let months0 := sess.fiscalMonthMultiselect.getD []
  if vd = [] then
    { fiscalYearSlider := some y0, fiscalMonthMultiselect := some months0 }
  else
    let y := resolvedYear y0 vd
    if monthsInYear vd y = [] then
      { fiscalYearSlider := some y, fiscalMonthMultiselect := some months0 }
    else
      { fiscalYearSlider := some y, fiscalMonthMultiselect := some sel.months }

/-- One script run over the filter section (lines 115-358): the three
selection-required checks in source order, each halting the script before
the session-state writes of lines 167 onward and before any aggregate,
chart, alert or export code runs; otherwise the working table and the
alert table are produced.  The first component is the session-stored
normalized full table (`df_original_available`) as this part of the script
leaves it. -/
def interaction (hoje : Date) (dfOrig : Table) (sess : Session) (sel : Selections) :
    Table × Session × RunOut :=
  if sel.tipos = [] then (dfOrig, sess, .halted .tipoRequired)
  else if sel.fiscais = [] then (dfOrig, sess, .halted .fiscalRequired)
  else if sel.rpas = [] then (dfOrig, sess, .halted .rpaRequired)
  else
    let y0 := initSessionYear sess hoje dfOrig
    let wt := applyFilters hoje y0 sel dfOrig
    (dfOrig, updatedSession sess hoje sel dfOrig, .rendered wt (alertaTable wt sel.alertaDias))

/-!
Column-oriented dataframe model for the exporter
(`download_excel_with_formatting`, lines 50-80).  The Python function is
generic in its dataframe argument, so it is embedded over a generic
column/dtype model rather than over `Row`.
-/

/-- The pandas dtypes that occur here. -/
inductive Dtype
  | datetime64
  | object
  | int64
deriving DecidableEq, Repr

/-- One dataframe cell: a timestamp, a string, an integer, or missing
(`NaN` / `NaT`). -/
inductive Cell
  | dt (d : DateTime)
  | str (s : String)
  | num (n : Int)
  | missing
deriving DecidableEq, Repr

/-- One dataframe column: name, dtype, cells in row order. -/
structure Col where
  name : String
  dtype : Dtype
  cells : List Cell
deriving DecidableEq, Repr

/-- A dataframe, as its columns in order. -/
abbrev DF := List Col

/-- Zero-pad a natural number to two digits (`strftime` month/day). -/
def pad2 (n : Nat) : String :=
  if n < 10 then "0" ++ toString n else toString n

/-- Zero-pad a year to four digits (`strftime %Y`). -/
def pad4 (y : Int) : String :=
  if 0 ≤ y ∧ y < 10 then "000" ++ toString y
  else if 0 ≤ y ∧ y < 100 then "00" ++ toString y
  else if 0 ≤ y ∧ y < 1000 then "0" ++ toString y
  else toString y

/-- `strftime('%Y-%m-%d')` of one date. -/
def fmtDate (d : Date) : String :=
  pad4 d.year ++ "-" ++ pad2 d.month ++ "-" ++ pad2 d.day

/-- `series.dt.strftime('%Y-%m-%d')` over a datetime64 column's cells:
each timestamp becomes its plain date string; a missing timestamp (`NaT`)
becomes a missing value (`NaN`), not a string. -/
def strftimeCells (cells : List Cell) : List Cell :=
  cells.map fun c =>
    match c with
    | .dt d => .str (fmtDate d.date)
    | _ => .missing

/-- Lines 54-55 of the source: for every datetime64-typed column, assign
the strftime result back onto the dataframe (the assignment changes the
column's cells and dtype on the very dataframe object the caller passed
in). -/
def stringifyDatetimes (df : DF) : DF :=
  df.map fun col =>
    if col.dtype = Dtype.datetime64 then
      { col with dtype := Dtype.object, cells := strftimeCells col.cells }
    else col

/-- `str(value)` of one cell as pandas `astype(str)` renders it for the
width computation (a missing value renders as the string "nan"). -/
def cellText (c : Cell) : String :=
  match c with
  | .str s => s
  | .num n => toString n
  | .dt d => fmtDate d.date
  | .missing => "nan"

/-- Line 73-76: `max(len(str(col)), column.astype(str).map(len).max()) + 2`
(on an empty column the header length wins, as in the source where the
`NaN` from an empty max loses the comparison). -/
def colWidth (col : Col) : Nat :=
  max col.name.length ((col.cells.map (fun c => (cellText c).length)).foldl max 0) + 2

/-- The per-column worksheet settings `worksheet.set_column` stores:
an optional explicit width and whether a centering cell format is
attached.  `none` means the column was never set. -/
structure ColSetting where
  width : Option Nat
  centered : Bool
deriving DecidableEq, Repr

/-- `worksheet.set_column(i, i, width, fmt)`: xlsxwriter keeps one settings
record per column, so a later call on the same column replaces the earlier
record entirely (width and cell format together). -/
def setColumn (settings : List (Option ColSetting)) (i : Nat) (s : ColSetting) :
    List (Option ColSetting) :=
  settings.set i (some s)

/-- The formatting loop of lines 67-77, over the (already stringified)
dataframe: for each column, `set_column(i, i, None, center_format)` then
`set_column(i, i, max_len)` — the second call carries no cell format, so
the record it stores has `centered := false`. -/
def exportSettings (df2 : DF) : List (Option ColSetting) :=
  df2.enum.foldl
    (fun st ic =>
      let st1 := setColumn st ic.1 { width := none, centered := true }
      setColumn st1 ic.1 { width := some (colWidth ic.2), centered := false })
    (List.replicate df2.length none)

/-- The worksheet the exporter writes: sheet name, header row (the column
names in dataframe order), the cell columns in the same order, and the
per-column settings. -/
structure Sheet where
  sheetName : String
  header : List String
  dataCols : List (List Cell)
  settings : List (Option ColSetting)
deriving DecidableEq, Repr

/-- `download_excel_with_formatting` (lines 50-80).  The first component
of the result is the dataframe object the caller passed in, as the call
leaves it: the strftime assignment of lines 54-55 happens on that object
before `to_excel`, so the caller's datetime columns come back stringified.
The second component is the written worksheet. -/
def download_excel_with_formatting (df : DF) (sheetName : String) : DF × Sheet :=
  let df2 := stringifyDatetimes df
  (df2,
    { sheetName := sheetName
      header := df2.map (·.name)
      dataCols := df2.map (·.cells)
      settings := exportSettings df2 })

/-!
Concrete sample inputs used by the counterexamples and witnesses below.
-/

/-- Build a normalized row with the fields the filters inspect. -/
def mkRow (i : Int) (tipo fiscal rpa : Option String) (ult : Option DateTime) : Row :=
  { id := i, rpa := rpa, bairro := "Boa Vista", logradouro := "Rua A",
    trecho := "1", tipoServico := tipo, fiscal := fiscal,
    dataAbertura := none, ultimaFiscalizacao := ult }

/-- A sample current date. -/
def hojeW : Date := { year := 2025, month := 10, day := 12 }

/-- Sample Id column of a normalized full table (column model). -/
def colId1 : Col := { name := "Id", dtype := Dtype.int64, cells := [Cell.num 1] }

/-- Sample last-inspection column of a normalized full table: a datetime64
column holding one timestamp, as the loader produces it. -/
def colUlt1 : Col :=
  { name := "Última Fiscalização", dtype := Dtype.datetime64,
    cells := [Cell.dt { date := { year := 2024, month := 5, day := 17 }, secs := 0 }] }

/-- A two-column normalized full table in the column model. -/
def dfFull1 : DF := [colId1, colUlt1]

/-- A one-column dataframe for the exporter formatting check. -/
def dfC9 : DF := [{ name := "Id", dtype := Dtype.object, cells := [Cell.str "abc"] }]

/-- Two-row table whose inspectors differ across service types. -/
def dfC2 : Table :=
  [mkRow 1 (some "A") (some "X") (some "R1") none,
   mkRow 2 (some "B") (some "Y") (some "R1") none]

/-- A Filter State selecting only service type "A". -/
def selC2 : Selections :=
  { tipos := ["A"], fiscais := ["X", "Y"], rpas := ["R1"], months := [], alertaDias := 30 }

/-- A row with all three mandatory fields present but no last-inspection
date. -/
def rowC3 : Row := mkRow 1 (some "A") (some "X") (some "R1") none

/-- A one-row table whose only row has a missing last-inspection date. -/
def dfC3 : Table := [rowC3]

/-- Non-empty selections matching `rowC3`. -/
def selC3 : Selections :=
  { tipos := ["A"], fiscais := ["X"], rpas := ["R1"], months := [], alertaDias := 30 }

/-- A row with a valid May 2024 last-inspection date. -/
def rowC3w : Row :=
  mkRow 7 (some "Buraco SIGA") (some "Fiscal SIGA RPA 1") (some "RPA 1")
    (some { date := { year := 2024, month := 5, day := 17 }, secs := 3600 })

/-- A one-row table for the working-table witness. -/
def dfC3w : Table := [rowC3w]

/-- Selections matching `rowC3w`, with month "Maio" selected. -/
def selC3w : Selections :=
  { tipos := ["Buraco SIGA"], fiscais := ["Fiscal SIGA RPA 1"], rpas := ["RPA 1"],
    months := ["Maio"], alertaDias := 30 }

/-- A working table holding two alert rows with equal day counts. -/
def wtC4 : Table :=
  [{ mkRow 1 (some "A") (some "X") (some "R1") none with dias := some 40 },
   { mkRow 2 (some "A") (some "X") (some "R1") none with dias := some 40 }]

/-- A working table with distinct day counts, one below the threshold. -/
def wtC4w : Table :=
  [{ mkRow 1 (some "A") (some "X") (some "R1") none with dias := some 35 },
   { mkRow 2 (some "A") (some "X") (some "R1") none with dias := some 90 },
   { mkRow 3 (some "A") (some "X") (some "R1") none with dias := some 10 }]

/-- Modelled from the claim wording (not from the source): the output is
sorted strictly descending by the days column when every adjacent pair
strictly decreases. -/
def claimStrictDesc : List (Nat × Row) → Bool
  | [] => true
  | [_] => true
  | p :: q :: rest => decide (diasKey q.2 < diasKey p.2) && claimStrictDesc (q :: rest)

/-- A session with both temporal keys absent. -/
def sessW : Session := { fiscalYearSlider := none, fiscalMonthMultiselect := none }

/-- A Filter State whose mandatory service-type selection is empty. -/
def selHaltW : Selections :=
  { tipos := [], fiscais := ["X"], rpas := ["R1"], months := [], alertaDias := 30 }

/-- A one-row table carrying the "Buraco SIGA" service type. -/
def dfC10w : Table :=
  [mkRow 1 (some "Buraco SIGA") (some "X") (some "R1") none,
   mkRow 2 (some "Poda") (some "X") (some "R1") none]

/-!
Helper lemmas about the embedded operations.
-/

theorem mem_uniqueSorted {s : String} {xs : List String} :
    s ∈ uniqueSorted xs ↔ s ∈ xs := by
  unfold uniqueSorted sortStrings
  rw [List.mem_insertionSort, List.mem_dedup]

theorem setDias_ult (hoje : Date) (r : Row) :
    (setDias hoje r).ultimaFiscalizacao = r.ultimaFiscalizacao := rfl

theorem pTipo_setDias (sel : List String) (hoje : Date) (r : Row) :
    pTipo sel (setDias hoje r) = pTipo sel r := rfl

theorem pFiscal_setDias (sel : List String) (hoje : Date) (r : Row) :
    pFiscal sel (setDias hoje r) = pFiscal sel r := rfl

theorem pRpa_setDias (sel : List String) (hoje : Date) (r : Row) :
    pRpa sel (setDias hoje r) = pRpa sel r := rfl

theorem temporalPass_setDias (y : Int) (ms : List Nat) (hoje : Date) (r : Row) :
    temporalPass y ms (setDias hoje r) = temporalPass y ms r := rfl

theorem setDias_setDias (hoje : Date) (r : Row) :
    setDias hoje (setDias hoje r) = setDias hoje r := rfl

theorem filtro3_map_setDias (sel : Selections) (hoje : Date) (l : Table) :
    filtro3 sel (l.map (setDias hoje)) = (filtro3 sel l).map (setDias hoje) := by
  have h1 : pTipo sel.tipos ∘ setDias hoje = pTipo sel.tipos :=
    funext fun r => pTipo_setDias sel.tipos hoje r
  have h2 : pFiscal sel.fiscais ∘ setDias hoje = pFiscal sel.fiscais :=
    funext fun r => pFiscal_setDias sel.fiscais hoje r
  have h3 : pRpa sel.rpas ∘ setDias hoje = pRpa sel.rpas :=
    funext fun r => pRpa_setDias sel.rpas hoje r
  unfold filtro3
  rw [List.filter_map, h1, List.filter_map, h2, List.filter_map, h3]

theorem validDates_map_setDias (hoje : Date) (l : Table) :
    validDates (l.map (setDias hoje)) = validDates l := by
  have h : Row.ultimaFiscalizacao ∘ setDias hoje = Row.ultimaFiscalizacao :=
    funext fun r => setDias_ult hoje r
  unfold validDates
  rw [List.filterMap_map, h]

theorem map_setDias_idem (hoje : Date) (l : Table) :
    (l.map (setDias hoje)).map (setDias hoje) = l.map (setDias hoje) := by
  rw [List.map_map]
  exact List.map_congr_left fun r _ => setDias_setDias hoje r

theorem mem_filtro3 {sel : Selections} {l : Table} {r : Row} (h : r ∈ filtro3 sel l) :
    r ∈ l ∧ pTipo sel.tipos r = true ∧ pFiscal sel.fiscais r = true ∧
      pRpa sel.rpas r = true := by
  unfold filtro3 at h
  have hR := List.of_mem_filter h
  have h2 := List.mem_of_mem_filter h
  have hF := List.of_mem_filter h2
  have h3 := List.mem_of_mem_filter h2
  exact ⟨List.mem_of_mem_filter h3, List.of_mem_filter h3, hF, hR⟩

theorem filtro3_eq_self_of_mem {sel : Selections} {l m : Table}
    (hsub : ∀ a ∈ m, a ∈ filtro3 sel l) : filtro3 sel m = m := by
  unfold filtro3
  have hT : m.filter (pTipo sel.tipos) = m :=
    List.filter_eq_self.mpr fun a ha => (mem_filtro3 (hsub a ha)).2.1
  rw [hT]
  have hF : m.filter (pFiscal sel.fiscais) = m :=
    List.filter_eq_self.mpr fun a ha => (mem_filtro3 (hsub a ha)).2.2.1
  rw [hF]
  exact List.filter_eq_self.mpr fun a ha => (mem_filtro3 (hsub a ha)).2.2.2

theorem foldl_pick_mem (f : DateTime → DateTime → DateTime)
    (hf : ∀ a b, f a b = a ∨ f a b = b) :
    ∀ (vs : List DateTime) (v : DateTime), vs.foldl f v = v ∨ vs.foldl f v ∈ vs := by
  intro vs
  induction vs with
  | nil => intro v; exact Or.inl rfl
  | cons d ds ih =>
    intro v
    rw [List.foldl_cons]
    rcases ih (f v d) with h | h
    · rcases hf v d with h2 | h2
      · exact Or.inl (by rw [h, h2])
      · exact Or.inr (by rw [h, h2]; exact List.mem_cons_self _ _)
    · exact Or.inr (List.mem_cons_of_mem _ h)

theorem minDateD_mem (v : DateTime) (vs : List DateTime) : minDateD v vs ∈ v :: vs := by
  unfold minDateD
  have hf : ∀ a b : DateTime,
      (if chronoKey b < chronoKey a then b else a) = a ∨
        (if chronoKey b < chronoKey a then b else a) = b := by
    intro a b
    by_cases hk : chronoKey b < chronoKey a
    · exact Or.inr (if_pos hk)
    · exact Or.inl (if_neg hk)
  rcases foldl_pick_mem _ hf vs v with h | h
  · rw [h]; exact List.mem_cons_self _ _
  · exact List.mem_cons_of_mem _ h

theorem maxDateD_mem (v : DateTime) (vs : List DateTime) : maxDateD v vs ∈ v :: vs := by
  unfold maxDateD
  have hf : ∀ a b : DateTime,
      (if chronoKey a < chronoKey b then b else a) = a ∨
        (if chronoKey a < chronoKey b then b else a) = b := by
    intro a b
    by_cases hk : chronoKey a < chronoKey b
    · exact Or.inr (if_pos hk)
    · exact Or.inl (if_neg hk)
  rcases foldl_pick_mem _ hf vs v with h | h
  · rw [h]; exact List.mem_cons_self _ _
  · exact List.mem_cons_of_mem _ h

theorem clampYear_eq_of_eq (s a : Int) : clampYear s a a = a := by
  unfold clampYear
  split_ifs with h1 h2
  · rfl
  · rfl
  · omega

theorem resolvedYear_cases (s : Int) (vd : List DateTime) :
    resolvedYear s vd = s ∨ resolvedYear s vd = minYearOf vd s ∨
      resolvedYear s vd = maxYearOf vd s := by
  unfold resolvedYear clampYear
  split_ifs with h1 h2
  · exact Or.inr (Or.inl rfl)
  · exact Or.inr (Or.inr rfl)
  · exact Or.inl rfl

theorem monthsInYear_ne_nil {vd : List DateTime} {y : Int}
    (hne : vd ≠ []) (hall : ∀ d ∈ vd, d.date.year = y) : monthsInYear vd y ≠ [] := by
  unfold monthsInYear
  intro hcontra
  have hfil : vd.filter (fun d => decide (d.date.year = y)) = vd :=
    List.filter_eq_self.mpr fun d hd => by simpa using hall d hd
  rw [hfil] at hcontra
  have hperm := List.perm_insertionSort (· ≤ ·)
    ((vd.map (fun d => d.date.month)).dedup)
  rw [hcontra] at hperm
  have hded : (vd.map (fun d => d.date.month)).dedup = [] := hperm.symm.eq_nil
  have hmap := (List.dedup_eq_nil _).mp hded
  exact hne (List.map_eq_nil_iff.mp hmap)

theorem mem_temporalStage {sessY : Int} {sel : Selections} {l : Table} {r : Row}
    (h : r ∈ temporalStage sessY sel l) : r ∈ l := by
  unfold temporalStage at h
  split_ifs at h
  · exact h
  · exact h
  · exact List.mem_of_mem_filter h

/-!
Claim theorems.
-/

/-- C10: the default service-type selection is "Buraco SIGA" when it is
among the available (distinct, non-missing, sorted) service types of the
loaded table, otherwise the first available type in sorted order,
otherwise the empty selection when no service types exist. -/
theorem tipo_padrao_spec (df : Table) :
    ("Buraco SIGA" ∈ tiposDisponiveis df →
        tipoPadrao (tiposDisponiveis df) = ["Buraco SIGA"]) ∧
    ("Buraco SIGA" ∉ tiposDisponiveis df →
        ∀ t ts, tiposDisponiveis df = t :: ts →
          tipoPadrao (tiposDisponiveis df) = [t]) ∧
    (tiposDisponiveis df = [] → tipoPadrao (tiposDisponiveis df) = []) := by
  refine ⟨?_, ?_, ?_⟩
  · intro h
    unfold tipoPadrao
    rw [if_pos h]
  · intro h t ts hav
    unfold tipoPadrao
    rw [if_neg h, hav]
  · intro h
    unfold tipoPadrao
    by_cases hb : "Buraco SIGA" ∈ tiposDisponiveis df
    · rw [h] at hb
      exact absurd hb (List.not_mem_nil _)
    · rw [if_neg hb, h]

/-- Witness for `tipo_padrao_spec` on a table offering "Buraco SIGA". -/
theorem tipo_padrao_spec_witness :
    "Buraco SIGA" ∈ tiposDisponiveis dfC10w ∧
      tipoPadrao (tiposDisponiveis dfC10w) = ["Buraco SIGA"] :=
  ⟨by decide, (tipo_padrao_spec dfC10w).1 (by decide)⟩

/-- C6: no row with a missing last-inspection date passes the temporal
mask `(dt.year == selected_year) & (dt.month.isin(selected_months))`, for
every table, selected year and selected month set. -/
theorem temporal_filter_excludes_missing (df : Table) (y : Int) (ms : List Nat)
    (r : Row) (hr : r ∈ df.filter (temporalPass y ms)) :
    r.ultimaFiscalizacao ≠ none := by
  have hp := List.of_mem_filter hr
  intro hu
  unfold temporalPass at hp
  rw [hu] at hp
  exact Bool.noConfusion hp

/-- Witness for `temporal_filter_excludes_missing`: a dated row passes the
mask and indeed has a non-missing date. -/
theorem temporal_filter_excludes_missing_witness :
    (rowC3w ∈ dfC3w.filter (temporalPass 2024 [5])) ∧
      rowC3w.ultimaFiscalizacao ≠ none :=
  ⟨by decide, temporal_filter_excludes_missing dfC3w 2024 [5] rowC3w (by decide)⟩

/-- C5: in the working table the computed days column is null exactly for
rows with a missing last-inspection date, and otherwise holds the signed
day difference between the current date and the date part of the
timestamp. -/
theorem dias_column_spec (hoje : Date) (sessY : Int) (sel : Selections) (df : Table)
    (r : Row) (hr : r ∈ applyFilters hoje sessY sel df) :
    (r.dias = none ↔ r.ultimaFiscalizacao = none) ∧
    ∀ d, r.ultimaFiscalizacao = some d →
      r.dias = some (epochDays hoje - epochDays d.date) := by
  unfold applyFilters at hr
  obtain ⟨r0, _, rfl⟩ := List.mem_map.mp hr
  constructor
  · cases h : r0.ultimaFiscalizacao <;> simp [setDias, h]
  · intro d hd
    rw [setDias_ult] at hd
    simp [setDias, hd]

/-- Witness for `dias_column_spec` on a concrete one-row pipeline run. -/
theorem dias_column_spec_witness :
    (setDias hojeW rowC3w ∈ applyFilters hojeW 2024 selC3w dfC3w) ∧
      ((setDias hojeW rowC3w).dias = none ↔
        (setDias hojeW rowC3w).ultimaFiscalizacao = none) :=
  ⟨by decide, (dias_column_spec hojeW 2024 selC3w dfC3w _ (by decide)).1⟩

/-- C7: when any mandatory selection is empty the script halts with the
matching selection-required stop before any downstream artifact is
produced, and the stored full table and the widget session state are
exactly as they were. -/
theorem empty_selection_halts (hoje : Date) (dfOrig : Table) (sess : Session)
    (sel : Selections) (h : sel.tipos = [] ∨ sel.fiscais = [] ∨ sel.rpas = []) :
    (interaction hoje dfOrig sess sel).1 = dfOrig ∧
    (interaction hoje dfOrig sess sel).2.1 = sess ∧
    ∃ hr, (interaction hoje dfOrig sess sel).2.2 = RunOut.halted hr := by
  unfold interaction
  by_cases h1 : sel.tipos = []
  · rw [if_pos h1]
    exact ⟨rfl, rfl, _, rfl⟩
  · rw [if_neg h1]
    by_cases h2 : sel.fiscais = []
    · rw [if_pos h2]
      exact ⟨rfl, rfl, _, rfl⟩
    · rw [if_neg h2]
      have h3 : sel.rpas = [] := by tauto
      rw [if_pos h3]
      exact ⟨rfl, rfl, _, rfl⟩

/-- Witness for `empty_selection_halts` with an empty service-type
selection. -/
theorem empty_selection_halts_witness :
    (selHaltW.tipos = [] ∨ selHaltW.fiscais = [] ∨ selHaltW.rpas = []) ∧
      (interaction hojeW dfC3w sessW selHaltW).1 = dfC3w :=
  ⟨Or.inl rfl, (empty_selection_halts hojeW dfC3w sessW selHaltW (Or.inl rfl)).1⟩

/-- C1 counterexample: exporting a normalized full table that holds a
datetime column gives back a caller-visible table that differs from the
input — its last-inspection column's dtype is now object (date strings),
not datetime64, so the tables are not immutable across the export stage. -/
theorem exporter_mutation_cex :
    (download_excel_with_formatting dfFull1 "Dados Completos Tratados").1 ≠ dfFull1 ∧
    (download_excel_with_formatting dfFull1 "Dados Completos Tratados").1.map
        Col.dtype = [Dtype.int64, Dtype.object] ∧
    colUlt1.dtype = Dtype.datetime64 := by decide

/-- C1 (amended): the filter stages derive fresh tables, but the Exporter
mutates its argument in place: after the call, every datetime column of
the caller's table — in particular of the normalized full table — has
dtype object and holds the strftime date strings instead of datetime
values. -/
theorem exporter_stringifies_datetime_columns (df : DF) (nm : String) (col : Col)
    (hmem : col ∈ df) (hdt : col.dtype = Dtype.datetime64) :
    ∃ col', col' ∈ (download_excel_with_formatting df nm).1 ∧
      col'.name = col.name ∧ col'.dtype = Dtype.object ∧
      col'.cells = strftimeCells col.cells := by
  refine ⟨{ col with dtype := Dtype.object, cells := strftimeCells col.cells },
    ?_, rfl, rfl, rfl⟩
  have h1 : (download_excel_with_formatting df nm).1 = stringifyDatetimes df := rfl
  rw [h1]
  unfold stringifyDatetimes
  refine List.mem_map.mpr ⟨col, hmem, ?_⟩
  rw [if_pos hdt]

/-- Witness for `exporter_stringifies_datetime_columns` on the sample full
table. -/
theorem exporter_stringifies_datetime_columns_witness :
    (colUlt1 ∈ dfFull1 ∧ colUlt1.dtype = Dtype.datetime64) ∧
      ∃ col', col' ∈
          (download_excel_with_formatting dfFull1 "Dados Completos Tratados").1 ∧
        col'.name = colUlt1.name ∧ col'.dtype = Dtype.object ∧
        col'.cells = strftimeCells colUlt1.cells :=
  ⟨⟨by decide, by decide⟩,
    exporter_stringifies_datetime_columns dfFull1 "Dados Completos Tratados" colUlt1
      (by decide) (by decide)⟩

/-- C9 (code divergence): evaluating the exporter on a one-column frame,
the stored width is max(header length, max cell-text length) + 2 and the
header preserves the input column order, but the column's final stored
setting carries no centering format: the width-setting `set_column` call
replaced the record holding the center format, so the written sheet's
cells are not center-aligned as the code's comments and the claim state. -/
theorem export_center_format_lost :
    (download_excel_with_formatting dfC9 "Dados Filtrados").2.settings =
      [some { width := some 5, centered := false }] ∧
    (download_excel_with_formatting dfC9 "Dados Filtrados").2.header = ["Id"] := by
  decide

/-- C2 counterexample: with service type "A" selected, the inspector
domain the script offers is computed from the narrowed table (["X"]) and
differs from the full table's inspector domain (["X", "Y"]), so the
domains are not computed from the normalized full table. -/
theorem fiscal_domain_from_narrowed_cex :
    fiscaisDisponiveisCode selC2 dfC2 = ["X"] ∧
    fiscaisFull dfC2 = ["X", "Y"] ∧
    fiscaisDisponiveisCode selC2 dfC2 ≠ fiscaisFull dfC2 := by decide

/-- C2 (amended): the inspector domain comes from the service-type
narrowed table and the region domain from the service-type and inspector
narrowed table; each offered value is nevertheless a value of the full
table's corresponding domain, and the year selection clamps to the range
of whichever valid-date list the narrowed table yields. -/
theorem offered_domains_subset_full (df : Table) (sel : Selections) (sessY : Int)
    (vd : List DateTime) :
    (∀ s ∈ fiscaisDisponiveisCode sel df, s ∈ fiscaisFull df) ∧
    (∀ s ∈ rpasDisponiveisCode sel df, s ∈ rpasFull df) ∧
    (vd ≠ [] → resolvedYear sessY vd = sessY ∨
      resolvedYear sessY vd = minYearOf vd sessY ∨
      resolvedYear sessY vd = maxYearOf vd sessY) := by
  refine ⟨?_, ?_, fun _ => resolvedYear_cases sessY vd⟩
  · intro s hs
    unfold fiscaisDisponiveisCode at hs
    obtain ⟨r, hr, hfr⟩ := List.mem_filterMap.mp (mem_uniqueSorted.mp hs)
    unfold fiscaisFull
    exact mem_uniqueSorted.mpr
      (List.mem_filterMap.mpr ⟨r, List.mem_of_mem_filter hr, hfr⟩)
  · intro s hs
    unfold rpasDisponiveisCode at hs
    obtain ⟨r, hr, hfr⟩ := List.mem_filterMap.mp (mem_uniqueSorted.mp hs)
    unfold rpasFull
    exact mem_uniqueSorted.mpr
      (List.mem_filterMap.mpr
        ⟨r, List.mem_of_mem_filter (List.mem_of_mem_filter hr), hfr⟩)

/-- Witness for `offered_domains_subset_full` on the two-row sample. -/
theorem offered_domains_subset_full_witness :
    ("X" ∈ fiscaisDisponiveisCode selC2 dfC2) ∧ "X" ∈ fiscaisFull dfC2 :=
  ⟨by decide, (offered_domains_subset_full dfC2 selC2 0 []).1 "X" (by decide)⟩

/-- C3 counterexample: with all three mandatory selections non-empty but
no valid last-inspection date in the narrowed table, the temporal stage is
skipped (line 229) and a row with a missing date reaches the working
table; its date lies in no year or month, so the claimed temporal
conjunct fails for it. -/
theorem working_temporal_skipped_cex :
    (selC3.tipos ≠ [] ∧ selC3.fiscais ≠ [] ∧ selC3.rpas ≠ []) ∧
    rowC3 ∈ applyFilters hojeW 2025 selC3 dfC3 ∧
    temporalPass 2025 (selC3.months.filterMap monthNum) rowC3 = false := by decide

/-- C3 (amended): with the three mandatory selections non-empty, every
working-table row is a full-table row extended with the computed days
column and its service type, inspector and region belong to the selected
sets; additionally, whenever the temporal stage is active (the narrowed
table has valid dates and the resolved year offers at least one month),
its last-inspection date falls in the resolved year with a month among
the selected months. -/
theorem working_table_conjunction (hoje : Date) (sessY : Int) (sel : Selections)
    (df : Table) (r : Row)
    (_hts : sel.tipos ≠ []) (_hfs : sel.fiscais ≠ []) (_hrs : sel.rpas ≠ [])
    (hr : r ∈ applyFilters hoje sessY sel df) :
    ∃ r0, r0 ∈ df ∧ r = setDias hoje r0 ∧
      (∃ t ∈ sel.tipos, r0.tipoServico = some t) ∧
      (∃ f ∈ sel.fiscais, r0.fiscal = some f) ∧
      (∃ a ∈ sel.rpas, r0.rpa = some a) ∧
      (validDates (filtro3 sel df) ≠ [] →
        monthsInYear (validDates (filtro3 sel df))
          (resolvedYear sessY (validDates (filtro3 sel df))) ≠ [] →
        ∃ d, r0.ultimaFiscalizacao = some d ∧
          d.date.year = resolvedYear sessY (validDates (filtro3 sel df)) ∧
          d.date.month ∈ sel.months.filterMap monthNum) := by
  unfold applyFilters at hr
  obtain ⟨r0, hr0, rfl⟩ := List.mem_map.mp hr
  obtain ⟨hdf, hT, hF, hR⟩ := mem_filtro3 (mem_temporalStage hr0)
  refine ⟨r0, hdf, rfl, ?_, ?_, ?_, ?_⟩
  · unfold pTipo at hT
    cases h : r0.tipoServico with
    | none => simp [h] at hT
    | some t =>
      rw [h] at hT
      exact ⟨t, of_decide_eq_true hT, rfl⟩
  · unfold pFiscal at hF
    cases h : r0.fiscal with
    | none => simp [h] at hF
    | some f =>
      rw [h] at hF
      exact ⟨f, of_decide_eq_true hF, rfl⟩
  · unfold pRpa at hR
    cases h : r0.rpa with
    | none => simp [h] at hR
    | some a =>
      rw [h] at hR
      exact ⟨a, of_decide_eq_true hR, rfl⟩
  · intro hvd hm
    unfold temporalStage at hr0
    rw [if_neg hvd, if_neg hm] at hr0
    have htp := List.of_mem_filter hr0
    unfold temporalPass at htp
    cases h : r0.ultimaFiscalizacao with
    | none => simp [h] at htp
    | some d =>
      rw [h] at htp
      simp only [Bool.and_eq_true, decide_eq_true_eq] at htp
      exact ⟨d, rfl, htp.1, htp.2⟩

/-- Witness for `working_table_conjunction` on a concrete one-row run
(whose temporal stage happens to be active). -/
theorem working_table_conjunction_witness :
    (selC3w.tipos ≠ [] ∧ selC3w.fiscais ≠ [] ∧ selC3w.rpas ≠ [] ∧
      setDias hojeW rowC3w ∈ applyFilters hojeW 2024 selC3w dfC3w) ∧
    ∃ r0, r0 ∈ dfC3w ∧ setDias hojeW rowC3w = setDias hojeW r0 ∧
      (∃ t ∈ selC3w.tipos, r0.tipoServico = some t) ∧
      (∃ f ∈ selC3w.fiscais, r0.fiscal = some f) ∧
      (∃ a ∈ selC3w.rpas, r0.rpa = some a) ∧
      (validDates (filtro3 selC3w dfC3w) ≠ [] →
        monthsInYear (validDates (filtro3 selC3w dfC3w))
          (resolvedYear 2024 (validDates (filtro3 selC3w dfC3w))) ≠ [] →
        ∃ d, r0.ultimaFiscalizacao = some d ∧
          d.date.year = resolvedYear 2024 (validDates (filtro3 selC3w dfC3w)) ∧
          d.date.month ∈ selC3w.months.filterMap monthNum) :=
  ⟨⟨by decide, by decide, by decide, by decide⟩,
    working_table_conjunction hojeW 2024 selC3w dfC3w (setDias hojeW rowC3w)
      (by decide) (by decide) (by decide) (by decide)⟩

/-- C4 counterexample: two alert rows with equal day counts (40) both pass
threshold 30, and the resulting alert table is not sorted strictly
descending on the days column — the adjacent values are equal. -/
theorem alert_strict_sort_cex :
    ((0 : Int) ≤ 30 ∧ (30 : Int) ≤ 180) ∧
    (alertaTable wtC4 30).length = 2 ∧
    claimStrictDesc (alertaTable wtC4 30) = false := by decide

/-- C4 (amended): for every working table and threshold in the slider
range, the alert table is exactly (a permutation as sorted output of) the
rows whose days column is non-null and strictly above the threshold,
sorted in non-increasing (descending, ties adjacent) order of that column,
with ranks 1..N in display order, and it is empty when the working table
is empty. -/
theorem alerta_table_spec (wt : Table) (thr : Int) (_h0 : 0 ≤ thr)
    (_h180 : thr ≤ 180) :
    ((alertaTable wt thr).map Prod.snd).Perm (wt.filter (alertPred thr)) ∧
    ((alertaTable wt thr).map Prod.snd).Pairwise alertGE ∧
    (alertaTable wt thr).map Prod.fst =
      List.range' 1 (wt.filter (alertPred thr)).length ∧
    (∀ p ∈ alertaTable wt thr, alertPred thr p.2 = true) ∧
    (wt = [] → alertaTable wt thr = []) := by
  have hsnd : (alertaTable wt thr).map Prod.snd =
      (wt.filter (alertPred thr)).insertionSort alertGE := by
    unfold alertaTable
    exact List.enumFrom_map_snd _ _
  refine ⟨?_, ?_, ?_, ?_, ?_⟩
  · rw [hsnd]
    exact List.perm_insertionSort _ _
  · rw [hsnd]
    exact List.sorted_insertionSort alertGE _
  · unfold alertaTable
    rw [List.enumFrom_map_fst]
    congr 1
    exact (List.perm_insertionSort _ _).length_eq
  · intro p hp
    have h2 : p.2 ∈ (alertaTable wt thr).map Prod.snd := List.mem_map_of_mem _ hp
    rw [hsnd] at h2
    exact List.of_mem_filter ((List.mem_insertionSort alertGE).mp h2)
  · intro h
    subst h
    rfl

/-- Witness for `alerta_table_spec`: ranks 1..N on a concrete working
table. -/
theorem alerta_table_spec_witness :
    ((0 : Int) ≤ 30 ∧ (30 : Int) ≤ 180) ∧
      (alertaTable wtC4w 30).map Prod.fst =
        List.range' 1 (wtC4w.filter (alertPred 30)).length :=
  ⟨⟨by decide, by decide⟩, (alerta_table_spec wtC4w 30 (by decide) (by decide)).2.2.1⟩

/-- Applying the temporal stage to its own (days-column annotated) output
changes nothing: the stage's skip conditions and its filter re-resolve to
the same decision on the already filtered rows. -/
theorem temporalStage_map_setDias_self (hoje : Date) (sessY : Int) (sel : Selections)
    (d1 : Table) :
    temporalStage sessY sel ((temporalStage sessY sel d1).map (setDias hoje)) =
      (temporalStage sessY sel d1).map (setDias hoje) := by
  by_cases hvd : validDates d1 = []
  · have hT : temporalStage sessY sel d1 = d1 := by
      unfold temporalStage
      rw [if_pos hvd]
    rw [hT]
    unfold temporalStage
    rw [validDates_map_setDias, if_pos hvd]
  · by_cases hm : monthsInYear (validDates d1) (resolvedYear sessY (validDates d1)) = []
    · have hT : temporalStage sessY sel d1 = d1 := by
        unfold temporalStage
        rw [if_neg hvd, if_pos hm]
      rw [hT]
      unfold temporalStage
      rw [validDates_map_setDias, if_neg hvd, if_pos hm]
    · have hT : temporalStage sessY sel d1 =
          d1.filter (temporalPass (resolvedYear sessY (validDates d1))
            (sel.months.filterMap monthNum)) := by
        unfold temporalStage
        rw [if_neg hvd, if_neg hm]
      rw [hT]
      have hvdT : validDates
          ((d1.filter (temporalPass (resolvedYear sessY (validDates d1))
            (sel.months.filterMap monthNum))).map (setDias hoje)) =
          validDates (d1.filter (temporalPass (resolvedYear sessY (validDates d1))
            (sel.months.filterMap monthNum))) :=
        validDates_map_setDias hoje _
      by_cases hvd2 : validDates (d1.filter
          (temporalPass (resolvedYear sessY (validDates d1))
            (sel.months.filterMap monthNum))) = []
      · unfold temporalStage
        rw [hvdT, if_pos hvd2]
      · have hall : ∀ d ∈ validDates (d1.filter
            (temporalPass (resolvedYear sessY (validDates d1))
              (sel.months.filterMap monthNum))),
            d.date.year = resolvedYear sessY (validDates d1) := by
          intro d hd
          obtain ⟨r, hrT, hrd⟩ := List.mem_filterMap.mp hd
          have htp := List.of_mem_filter hrT
          unfold temporalPass at htp
          rw [hrd] at htp
          simp only [Bool.and_eq_true, decide_eq_true_eq] at htp
          exact htp.1
        have hyT : resolvedYear sessY (validDates (d1.filter
            (temporalPass (resolvedYear sessY (validDates d1))
              (sel.months.filterMap monthNum)))) =
            resolvedYear sessY (validDates d1) := by
          cases hvv : validDates (d1.filter
              (temporalPass (resolvedYear sessY (validDates d1))
                (sel.months.filterMap monthNum))) with
          | nil => exact absurd hvv hvd2
          | cons v vs =>
            have hmin : (minDateD v vs).date.year = resolvedYear sessY (validDates d1) :=
              hall _ (hvv ▸ minDateD_mem v vs)
            have hmax : (maxDateD v vs).date.year = resolvedYear sessY (validDates d1) :=
              hall _ (hvv ▸ maxDateD_mem v vs)
            have h1 : resolvedYear sessY (v :: vs) =
                clampYear sessY ((minDateD v vs).date.year) ((maxDateD v vs).date.year) :=
              rfl
            rw [h1, hmin, hmax]
            exact clampYear_eq_of_eq sessY _
        have hmT : monthsInYear (validDates (d1.filter
            (temporalPass (resolvedYear sessY (validDates d1))
              (sel.months.filterMap monthNum))))
            (resolvedYear sessY (validDates (d1.filter
              (temporalPass (resolvedYear sessY (validDates d1))
                (sel.months.filterMap monthNum))))) ≠ [] := by
          rw [hyT]
          exact monthsInYear_ne_nil hvd2 hall
        have hallpass : ∀ r ∈ (d1.filter
            (temporalPass (resolvedYear sessY (validDates d1))
              (sel.months.filterMap monthNum))).map (setDias hoje),
            temporalPass (resolvedYear sessY (validDates d1))
              (sel.months.filterMap monthNum) r = true := by
          intro r hrm
          obtain ⟨r0, hr0, rfl⟩ := List.mem_map.mp hrm
          rw [temporalPass_setDias]
          exact List.of_mem_filter hr0
        unfold temporalStage
        rw [hvdT, if_neg hvd2, if_neg hmT, hyT]
        exact List.filter_eq_self.mpr hallpass

/-- C8: the filter computation is idempotent: running the membership
filters, the temporal stage and the days column a second time, on the
working table produced with the same session year and the same Filter
State, returns that working table unchanged — no state accumulates
across runs. -/
theorem applyFilters_idempotent (hoje : Date) (sessY : Int) (sel : Selections)
    (df : Table) :
    applyFilters hoje sessY sel (applyFilters hoje sessY sel df) =
      applyFilters hoje sessY sel df := by
  unfold applyFilters
  have hsub : ∀ a ∈ temporalStage sessY sel (filtro3 sel df), a ∈ filtro3 sel df :=
    fun a ha => mem_temporalStage ha
  have hf3 : filtro3 sel ((temporalStage sessY sel (filtro3 sel df)).map (setDias hoje)) =
      (temporalStage sessY sel (filtro3 sel df)).map (setDias hoje) := by
    rw [filtro3_map_setDias, filtro3_eq_self_of_mem hsub]
  rw [hf3, temporalStage_map_setDias_self, map_setDias_idem]
